import Mathlib

/-!
Verification of the combination-lock state machine in
`src/examples/combination-lock-puzzle/How-to-play.md` (the Arduino sketch
embedded in that document).

Modelling conventions:

* The three global variables `currentState`, `failureCount`, `stageStartTime`
  are gathered in a structure `Ctl`; one iteration of `loop()` becomes the
  function `loopT` (traced) / `loopStep`.
* One `loop()` iteration samples the pins once: `Sensors` holds the LDR
  reading (`analogRead(AL_LDR)`) and the two button levels
  (`btn1Low` means `digitalRead(AL_BUTTON_A4) == LOW`, i.e. pressed, since the
  buttons use `INPUT_PULLUP`; likewise `btn2Low` for `AL_BUTTON_A5`).
* `millis()` is modelled as a non-wrapping `Nat` clock (all reads within one
  32-bit epoch of the stored timestamp, so unsigned subtraction is plain
  subtraction).  Within a single iteration the successive `millis()` reads are
  computed from the iteration-start time `now` plus the `delay(...)` constants
  executed before each read — `delay(n)` is modelled as advancing the clock by
  exactly `n` and straight-line code as taking no time.  The blocking
  durations that precede a `millis()` read are:
    - `updateStageIndicator(stage)`: the fade-in loop runs `fadeValue`
      through 0,5,…,255 (52 iterations of `delay(1)`), the fade-out the same,
      plus `delay(200)`, all repeated `stage` times, plus a final
      `delay(500)`: `stage * 304 + 500` ms;
    - `failSequence` before its `stageStartTime = millis()` write:
      `delay(270)` + `delay(1000)` = 1270 ms;
    - `advanceStage` ends with `delay(200)` (after its `millis()` read);
    - `handleLockdownState` executes `delay(200)` twice before its
      `millis()` read: 400 ms.
* `tone(...)` with a duration argument is non-blocking and, like all LED /
  serial output, does not affect the three controller variables, so it is not
  modelled.  The `millis() % 1000` read in `handleArmingState` only drives the
  red LED and is likewise omitted.
* The traced step `loopT` also returns the list of successive values assigned
  to `currentState` during the iteration, in program order, so that the states
  the controller occupies (including mid-iteration ones such as `UNLOCKED`
  inside `unlockSequence`) are visible to the theorems.
-/

/-- Lock Configuration constants from the sketch. -/
def DARK_THRESHOLD : Nat := 400

/-- LDR value considered "light". -/
def LIGHT_THRESHOLD : Nat := 700

/-- Two seconds (2000 ms) for the timed challenge. -/
def TIMED_STAGE_WINDOW : Nat := 2000

/-- Max attempts before lockdown. -/
def MAX_FAILURES : Nat := 3

/-- Lockdown lasts 10000 ms (`millis() - stageStartTime > 10000`). -/
def LOCKDOWN_DURATION : Nat := 10000

/-- Blocking time of `updateStageIndicator(stage)` in ms (see module header). -/
def indicatorDuration (stage : Nat) : Nat := stage * 304 + 500

/-- Blocking time inside `failSequence` before its `millis()` read:
`delay(270)` plus `delay(1000)`. -/
def FAIL_FEEDBACK_DELAY : Nat := 1270

/-- The debounce `delay(200)` at the end of `advanceStage`. -/
def DEBOUNCE_DELAY : Nat := 200

/-- Blocking time in `handleLockdownState` before its `millis()` read:
two `delay(200)` calls. -/
def LOCKDOWN_POLL_DELAY : Nat := 400

/-- The `LockState` enumeration of the sketch. -/
inductive LockState where
  | IDLE
  | ARMING
  | ARMED
  | STAGE_1
  | STAGE_2
  | STAGE_3_TIMED
  | STAGE_4
  | UNLOCKED
  | FAILED
  | LOCKDOWN
deriving DecidableEq, Repr

open LockState

/-- The three global state variables of the sketch. -/
structure Ctl where
  currentState : LockState
  failureCount : Nat
  stageStartTime : Nat
deriving DecidableEq, Repr

/-- The initial global state: `currentState = IDLE`, `failureCount = 0`,
`stageStartTime = 0`. -/
def init : Ctl := ⟨IDLE, 0, 0⟩

/-- One snapshot of the input pins for a `loop()` iteration. -/
structure Sensors where
  ldr : Nat
  btn1Low : Bool
  btn2Low : Bool
deriving DecidableEq, Repr

/-- The `failSequence()` helper.  `tEnd` is the value of the `millis()` read
that follows the feedback delays (used for `stageStartTime` when entering
lockdown).  Also returns the `currentState` assignments it performs. -/
def failSequence (c : Ctl) (tEnd : Nat) : Ctl × List LockState :=
  let c1 : Ctl := { c with failureCount := c.failureCount + 1 }
  if MAX_FAILURES ≤ c1.failureCount then
    ({ c1 with currentState := LOCKDOWN, stageStartTime := tEnd }, [LOCKDOWN])
  else
    ({ c1 with currentState := IDLE }, [IDLE])

/-- The trailing expiry check of the `STAGE_3_TIMED` case
(`if (millis() - stageStartTime > TIMED_STAGE_WINDOW) failSequence();`),
parameterized by the state `c1` and trace `tr1` left by the first conditional
and the clock value `tC` of this second `millis()` read. -/
def outerCheck (c1 : Ctl) (tr1 : List LockState) (tC : Nat) : Ctl × List LockState :=
  if TIMED_STAGE_WINDOW < tC - c1.stageStartTime then
    ((failSequence c1 (tC + FAIL_FEEDBACK_DELAY)).1,
     tr1 ++ (failSequence c1 (tC + FAIL_FEEDBACK_DELAY)).2)
  else (c1, tr1)

/-- The whole `STAGE_3_TIMED` case of `loop()`: `updateStageIndicator(3)`
blocks for `indicatorDuration 3` ms, then the LDR and `millis()` are read;
the success / too-slow conditional runs, and then the unconditional expiry
check re-reads `millis()`. -/
def stage3Case (c : Ctl) (s : Sensors) (now : Nat) : Ctl × List LockState :=
  if LIGHT_THRESHOLD < s.ldr then
    if now + indicatorDuration 3 - c.stageStartTime ≤ TIMED_STAGE_WINDOW then
      -- advanceStage(STAGE_4): stageStartTime = millis(), then delay(200)
      outerCheck
        { c with currentState := STAGE_4,
                 stageStartTime := now + indicatorDuration 3 }
        [STAGE_4] (now + indicatorDuration 3 + DEBOUNCE_DELAY)
    else
      -- failSequence(): 1270 ms of feedback delays precede its millis() read
      outerCheck
        (failSequence c (now + indicatorDuration 3 + FAIL_FEEDBACK_DELAY)).1
        (failSequence c (now + indicatorDuration 3 + FAIL_FEEDBACK_DELAY)).2
        (now + indicatorDuration 3 + FAIL_FEEDBACK_DELAY)
  else
    outerCheck c [] (now + indicatorDuration 3)

/-- One iteration of `loop()` starting at clock value `now`, with traced
`currentState` assignments.  Mirrors the `switch (currentState)` of the
sketch case by case; see the module header for the clock model. -/
def loopT (c : Ctl) (s : Sensors) (now : Nat) : Ctl × List LockState :=
  match c.currentState with
  | IDLE =>
      -- handleIdleState: both buttons held starts ARMING
      if s.btn1Low && s.btn2Low then
        ({ c with currentState := ARMING }, [ARMING])
      else (c, [])
  | ARMING =>
      -- handleArmingState: both buttons released arms the system
      if !s.btn1Low && !s.btn2Low then
        ({ c with currentState := ARMED }, [ARMED])
      else (c, [])
  | ARMED =>
      -- immediate transition to STAGE_1, stageStartTime = millis()
      ({ c with currentState := STAGE_1, stageStartTime := now }, [STAGE_1])
  | STAGE_1 =>
      -- updateStageIndicator(1) blocks first, then the LDR is read
      if s.ldr < DARK_THRESHOLD then
        ({ c with currentState := STAGE_2,
                  stageStartTime := now + indicatorDuration 1 }, [STAGE_2])
      else (c, [])
  | STAGE_2 =>
      if s.ldr < DARK_THRESHOLD && s.btn1Low then
        ({ c with currentState := STAGE_3_TIMED,
                  stageStartTime := now + indicatorDuration 2 }, [STAGE_3_TIMED])
      else (c, [])
  | STAGE_3_TIMED => stage3Case c s now
  | STAGE_4 =>
      if LIGHT_THRESHOLD < s.ldr && s.btn2Low then
        -- unlockSequence(): currentState = UNLOCKED, failureCount = 0,
        -- 3.36 s of feedback delays, then currentState = IDLE
        ({ c with currentState := IDLE, failureCount := 0 }, [UNLOCKED, IDLE])
      else (c, [])
  | UNLOCKED =>
      -- dead case: the unlock sequence has already returned to IDLE
      (c, [])
  | FAILED =>
      -- dead case: failSequence never assigns FAILED
      (c, [])
  | LOCKDOWN =>
      -- handleLockdownState: 400 ms of flashing, then the exit check
      if LOCKDOWN_DURATION < (now + LOCKDOWN_POLL_DELAY) - c.stageStartTime then
        ({ c with currentState := IDLE, failureCount := 0 }, [IDLE])
      else (c, [])

/-- One iteration of `loop()`: the resulting global state. -/
def loopStep (c : Ctl) (s : Sensors) (now : Nat) : Ctl :=
  (loopT c s now).1

/-- A run of the sketch: successive `loop()` iterations, each with its pin
snapshot and iteration-start clock value. -/
def run (c : Ctl) (inputs : List (Sensors × Nat)) : Ctl :=
  inputs.foldl (fun st i => loopStep st i.1 i.2) c

/-- The states the controller occupies during one iteration that starts in
state `c.currentState`: the starting state followed by every state assigned
during the iteration. -/
def occupied (c : Ctl) (s : Sensors) (now : Nat) : List LockState :=
  c.currentState :: (loopT c s now).2

/-- Adjacent pairs of a list: the transitions along an occupancy sequence. -/
def chainPairs : List LockState → List (LockState × LockState)
  | [] => []
  | [_] => []
  | a :: b :: rest => (a, b) :: chainPairs (b :: rest)

/-- Modelled from the spec: the transition table of §4.1 of the design spec
(state, next-state) pairs, including the intermediate `Failed` state rows
`Stage3Timed → Failed`, `Failed → Lockdown`, `Failed → Idle`. -/
def specTable (a b : LockState) : Bool :=
  match a, b with
  | IDLE, ARMING => true
  | ARMING, ARMED => true
  | ARMED, STAGE_1 => true
  | STAGE_1, STAGE_2 => true
  | STAGE_2, STAGE_3_TIMED => true
  | STAGE_3_TIMED, STAGE_4 => true
  | STAGE_3_TIMED, FAILED => true
  | STAGE_4, UNLOCKED => true
  | UNLOCKED, IDLE => true
  | FAILED, LOCKDOWN => true
  | FAILED, IDLE => true
  | LOCKDOWN, IDLE => true
  | _, _ => false

/-- The transition pairs the code actually produces: the §4.1 table with the
`Failed` rows replaced by direct `Stage3Timed → Idle` / `Stage3Timed →
Lockdown` transitions, plus the `Idle → Idle` / `Idle → Lockdown` steps of the
double-failure iteration. -/
def codeTable (a b : LockState) : Bool :=
  match a, b with
  | IDLE, ARMING => true
  | ARMING, ARMED => true
  | ARMED, STAGE_1 => true
  | STAGE_1, STAGE_2 => true
  | STAGE_2, STAGE_3_TIMED => true
  | STAGE_3_TIMED, STAGE_4 => true
  | STAGE_3_TIMED, IDLE => true
  | STAGE_3_TIMED, LOCKDOWN => true
  | IDLE, IDLE => true
  | IDLE, LOCKDOWN => true
  | STAGE_4, UNLOCKED => true
  | UNLOCKED, IDLE => true
  | LOCKDOWN, IDLE => true
  | _, _ => false

/-! ### Characterization lemmas -/

theorem failSequence_lock (c : Ctl) (tEnd : Nat)
    (h : MAX_FAILURES ≤ c.failureCount + 1) :
    failSequence c tEnd = (⟨LOCKDOWN, c.failureCount + 1, tEnd⟩, [LOCKDOWN]) := by
  simp [failSequence, h]

theorem failSequence_idle (c : Ctl) (tEnd : Nat)
    (h : c.failureCount + 1 < MAX_FAILURES) :
    failSequence c tEnd
      = (⟨IDLE, c.failureCount + 1, c.stageStartTime⟩, [IDLE]) := by
  simp [failSequence, Nat.not_le.mpr h]

theorem outerCheck_pos (c1 : Ctl) (tr1 : List LockState) (tC : Nat)
    (h : TIMED_STAGE_WINDOW < tC - c1.stageStartTime) :
    outerCheck c1 tr1 tC
      = ((failSequence c1 (tC + FAIL_FEEDBACK_DELAY)).1,
         tr1 ++ (failSequence c1 (tC + FAIL_FEEDBACK_DELAY)).2) := by
  simp [outerCheck, h]

theorem outerCheck_neg (c1 : Ctl) (tr1 : List LockState) (tC : Nat)
    (h : ¬ TIMED_STAGE_WINDOW < tC - c1.stageStartTime) :
    outerCheck c1 tr1 tC = (c1, tr1) := by
  simp [outerCheck, h]

/-- Success path of the timed stage: light seen within the window advances to
`STAGE_4`; the trailing expiry check then reads a fresh 200 ms elapsed time
and cannot fire. -/
theorem stage3_adv (c : Ctl) (s : Sensors) (now : Nat)
    (h1 : LIGHT_THRESHOLD < s.ldr)
    (h2 : now + indicatorDuration 3 - c.stageStartTime ≤ TIMED_STAGE_WINDOW) :
    stage3Case c s now
      = ({ c with currentState := STAGE_4,
                  stageStartTime := now + indicatorDuration 3 }, [STAGE_4]) := by
  rw [stage3Case, if_pos h1, if_pos h2]
  exact outerCheck_neg _ _ _ (by simp only [TIMED_STAGE_WINDOW, DEBOUNCE_DELAY]; omega)

/-- Waiting in the timed stage: no light and the window not yet over leaves
everything unchanged. -/
theorem stage3_wait (c : Ctl) (s : Sensors) (now : Nat)
    (h1 : ¬ LIGHT_THRESHOLD < s.ldr)
    (h2 : ¬ TIMED_STAGE_WINDOW < now + indicatorDuration 3 - c.stageStartTime) :
    stage3Case c s now = (c, []) := by
  rw [stage3Case, if_neg h1]
  exact outerCheck_neg _ _ _ h2

/-- Expiry with the counter one short of the maximum: a single `failSequence`
run enters `LOCKDOWN` (whether or not the light guard also holds on this
iteration, and with `stageStartTime` rewritten at the end of the failure
feedback), and the trailing check cannot fire again. -/
theorem stage3_fail_lock (c : Ctl) (s : Sensors) (now : Nat)
    (hexp : TIMED_STAGE_WINDOW < now + indicatorDuration 3 - c.stageStartTime)
    (hf : MAX_FAILURES ≤ c.failureCount + 1) :
    stage3Case c s now
      = (⟨LOCKDOWN, c.failureCount + 1,
          now + indicatorDuration 3 + FAIL_FEEDBACK_DELAY⟩, [LOCKDOWN]) := by
  rw [stage3Case]
  by_cases h1 : LIGHT_THRESHOLD < s.ldr
  · rw [if_pos h1, if_neg (Nat.not_le.mpr hexp), failSequence_lock c _ hf]
    exact outerCheck_neg _ _ _ (by simp only [TIMED_STAGE_WINDOW]; omega)
  · rw [if_neg h1, outerCheck_pos _ _ _ hexp, failSequence_lock c _ hf]
    rfl

/-- Expiry without light and with the counter at least two below the maximum:
one `failSequence` run returns to `IDLE` (timestamp untouched). -/
theorem stage3_fail_idle (c : Ctl) (s : Sensors) (now : Nat)
    (h1 : ¬ LIGHT_THRESHOLD < s.ldr)
    (hexp : TIMED_STAGE_WINDOW < now + indicatorDuration 3 - c.stageStartTime)
    (hf : c.failureCount + 1 < MAX_FAILURES) :
    stage3Case c s now
      = (⟨IDLE, c.failureCount + 1, c.stageStartTime⟩, [IDLE]) := by
  rw [stage3Case, if_neg h1, outerCheck_pos _ _ _ hexp, failSequence_idle c _ hf]
  rfl

/-- Expiry with the light guard also true and the counter two below the
maximum: `failSequence` runs twice in the one iteration (the first run does
not rewrite `stageStartTime`, so the re-read expiry check fires again), and
the second run reaches the maximum and locks down. -/
theorem stage3_double_lock (c : Ctl) (s : Sensors) (now : Nat)
    (h1 : LIGHT_THRESHOLD < s.ldr)
    (hexp : TIMED_STAGE_WINDOW < now + indicatorDuration 3 - c.stageStartTime)
    (hf1 : c.failureCount + 1 < MAX_FAILURES)
    (hf2 : MAX_FAILURES ≤ c.failureCount + 2) :
    stage3Case c s now
      = (⟨LOCKDOWN, c.failureCount + 2,
          now + indicatorDuration 3 + FAIL_FEEDBACK_DELAY + FAIL_FEEDBACK_DELAY⟩,
         [IDLE, LOCKDOWN]) := by
  rw [stage3Case, if_pos h1, if_neg (Nat.not_le.mpr hexp), failSequence_idle c _ hf1,
    outerCheck_pos _ _ _ (by simp only [TIMED_STAGE_WINDOW] at hexp ⊢; omega),
    failSequence_lock _ _ (by simpa using hf2)]
  rfl

/-- Expiry with the light guard also true and the counter at least three below
the maximum: `failSequence` runs twice and both runs return to `IDLE`, so the
counter climbs by two in one iteration. -/
theorem stage3_double_idle (c : Ctl) (s : Sensors) (now : Nat)
    (h1 : LIGHT_THRESHOLD < s.ldr)
    (hexp : TIMED_STAGE_WINDOW < now + indicatorDuration 3 - c.stageStartTime)
    (hf2 : c.failureCount + 2 < MAX_FAILURES) :
    stage3Case c s now
      = (⟨IDLE, c.failureCount + 2, c.stageStartTime⟩, [IDLE, IDLE]) := by
  rw [stage3Case, if_pos h1, if_neg (Nat.not_le.mpr hexp),
    failSequence_idle c _ (by omega),
    outerCheck_pos _ _ _ (by simp only [TIMED_STAGE_WINDOW] at hexp ⊢; omega),
    failSequence_idle _ _ (by simpa using hf2)]
  rfl

example : loopStep init ⟨0, true, true⟩ 0 = ⟨ARMING, 0, 0⟩ := by decide
example : loopStep ⟨ARMING, 0, 0⟩ ⟨0, false, false⟩ 5 = ⟨ARMED, 0, 0⟩ := by decide
example : loopStep ⟨ARMED, 0, 0⟩ ⟨0, false, false⟩ 7 = ⟨STAGE_1, 0, 7⟩ := by decide
example : loopStep ⟨STAGE_1, 0, 7⟩ ⟨100, false, false⟩ 10 = ⟨STAGE_2, 0, 814⟩ := by
  decide
example :
    loopStep ⟨STAGE_3_TIMED, 2, 0⟩ ⟨500, false, false⟩ 3000
      = ⟨LOCKDOWN, 3, 3000 + 1412 + 1270⟩ := by decide
example :
    loopStep ⟨STAGE_3_TIMED, 0, 0⟩ ⟨800, false, false⟩ 3000
      = ⟨IDLE, 2, 0⟩ := by decide
example :
    (loopT ⟨STAGE_3_TIMED, 1, 0⟩ ⟨800, false, false⟩ 3000).1.currentState
      = LOCKDOWN := by decide

/-- Exhaustive case analysis of one `STAGE_3_TIMED` iteration: wait, advance,
single failure into lockdown, single failure back to idle, double failure
into lockdown, or double failure back to idle. -/
theorem stage3_cases (c : Ctl) (s : Sensors) (now : Nat) :
    (stage3Case c s now = (c, [])
       ∧ ¬ TIMED_STAGE_WINDOW < now + indicatorDuration 3 - c.stageStartTime)
  ∨ (stage3Case c s now
       = ({ c with currentState := STAGE_4,
                   stageStartTime := now + indicatorDuration 3 }, [STAGE_4])
       ∧ ¬ TIMED_STAGE_WINDOW < now + indicatorDuration 3 - c.stageStartTime)
  ∨ (stage3Case c s now
       = (⟨LOCKDOWN, c.failureCount + 1,
           now + indicatorDuration 3 + FAIL_FEEDBACK_DELAY⟩, [LOCKDOWN])
       ∧ MAX_FAILURES ≤ c.failureCount + 1
       ∧ TIMED_STAGE_WINDOW < now + indicatorDuration 3 - c.stageStartTime)
  ∨ (stage3Case c s now = (⟨IDLE, c.failureCount + 1, c.stageStartTime⟩, [IDLE])
       ∧ c.failureCount + 1 < MAX_FAILURES
       ∧ TIMED_STAGE_WINDOW < now + indicatorDuration 3 - c.stageStartTime)
  ∨ (stage3Case c s now
       = (⟨LOCKDOWN, c.failureCount + 2,
           now + indicatorDuration 3 + FAIL_FEEDBACK_DELAY + FAIL_FEEDBACK_DELAY⟩,
          [IDLE, LOCKDOWN])
       ∧ c.failureCount + 1 < MAX_FAILURES ∧ MAX_FAILURES ≤ c.failureCount + 2
       ∧ TIMED_STAGE_WINDOW < now + indicatorDuration 3 - c.stageStartTime)
  ∨ (stage3Case c s now = (⟨IDLE, c.failureCount + 2, c.stageStartTime⟩, [IDLE, IDLE])
       ∧ c.failureCount + 2 < MAX_FAILURES
       ∧ TIMED_STAGE_WINDOW < now + indicatorDuration 3 - c.stageStartTime) := by
  by_cases hexp : TIMED_STAGE_WINDOW < now + indicatorDuration 3 - c.stageStartTime
  · by_cases h1 : LIGHT_THRESHOLD < s.ldr
    · by_cases hf1 : MAX_FAILURES ≤ c.failureCount + 1
      · exact Or.inr (Or.inr (Or.inl ⟨stage3_fail_lock c s now hexp hf1, hf1, hexp⟩))
      · by_cases hf2 : MAX_FAILURES ≤ c.failureCount + 2
        · exact Or.inr (Or.inr (Or.inr (Or.inr (Or.inl
            ⟨stage3_double_lock c s now h1 hexp (Nat.not_le.mp hf1) hf2,
             Nat.not_le.mp hf1, hf2, hexp⟩))))
        · exact Or.inr (Or.inr (Or.inr (Or.inr (Or.inr
            ⟨stage3_double_idle c s now h1 hexp (Nat.not_le.mp hf2),
             Nat.not_le.mp hf2, hexp⟩))))
    · by_cases hf1 : MAX_FAILURES ≤ c.failureCount + 1
      · exact Or.inr (Or.inr (Or.inl ⟨stage3_fail_lock c s now hexp hf1, hf1, hexp⟩))
      · exact Or.inr (Or.inr (Or.inr (Or.inl
          ⟨stage3_fail_idle c s now h1 hexp (Nat.not_le.mp hf1),
           Nat.not_le.mp hf1, hexp⟩)))
  · by_cases h1 : LIGHT_THRESHOLD < s.ldr
    · exact Or.inr (Or.inl ⟨stage3_adv c s now h1 (Nat.not_lt.mp hexp), hexp⟩)
    · exact Or.inl ⟨stage3_wait c s now h1 hexp, hexp⟩

/-- The invariant on the failure counter: it never exceeds `MAX_FAILURES`, and
a configuration with the counter at `MAX_FAILURES` is in `LOCKDOWN`. -/
def counterInv (c : Ctl) : Prop :=
  c.failureCount ≤ MAX_FAILURES ∧
    (c.failureCount = MAX_FAILURES → c.currentState = LOCKDOWN)

theorem counterInv_step (c : Ctl) (s : Sensors) (now : Nat)
    (h : counterInv c) : counterInv (loopStep c s now) := by
  obtain ⟨hle, hmax⟩ := h
  rcases c with ⟨st, fc, ss⟩
  cases st
  case IDLE =>
    have hfcne : fc ≠ MAX_FAILURES := fun hfc => LockState.noConfusion (hmax hfc)
    simp only [loopStep, loopT]
    split <;> exact ⟨hle, fun hfc => absurd hfc hfcne⟩
  case ARMING =>
    have hfcne : fc ≠ MAX_FAILURES := fun hfc => LockState.noConfusion (hmax hfc)
    simp only [loopStep, loopT]
    split <;> exact ⟨hle, fun hfc => absurd hfc hfcne⟩
  case ARMED =>
    have hfcne : fc ≠ MAX_FAILURES := fun hfc => LockState.noConfusion (hmax hfc)
    exact ⟨hle, fun hfc => absurd hfc hfcne⟩
  case STAGE_1 =>
    have hfcne : fc ≠ MAX_FAILURES := fun hfc => LockState.noConfusion (hmax hfc)
    simp only [loopStep, loopT]
    split <;> exact ⟨hle, fun hfc => absurd hfc hfcne⟩
  case STAGE_2 =>
    have hfcne : fc ≠ MAX_FAILURES := fun hfc => LockState.noConfusion (hmax hfc)
    simp only [loopStep, loopT]
    split <;> exact ⟨hle, fun hfc => absurd hfc hfcne⟩
  case STAGE_3_TIMED =>
    have hfcne : fc ≠ MAX_FAILURES := fun hfc => LockState.noConfusion (hmax hfc)
    have hle2 : fc ≤ MAX_FAILURES := hle
    have hstep : loopStep ⟨STAGE_3_TIMED, fc, ss⟩ s now
        = (stage3Case ⟨STAGE_3_TIMED, fc, ss⟩ s now).1 := rfl
    rcases stage3_cases ⟨STAGE_3_TIMED, fc, ss⟩ s now with
      ⟨he, _⟩ | ⟨he, _⟩ | ⟨he, h1, _⟩ | ⟨he, h1, _⟩ | ⟨he, h1, h2, _⟩ | ⟨he, h1, _⟩ <;>
      rw [hstep, he]
    · exact ⟨hle, fun hfc => absurd hfc hfcne⟩
    · exact ⟨hle, fun hfc => absurd hfc hfcne⟩
    · exact ⟨show fc + 1 ≤ MAX_FAILURES by omega, fun _ => rfl⟩
    · have h1n : fc + 1 < MAX_FAILURES := h1
      exact ⟨show fc + 1 ≤ MAX_FAILURES by omega,
        fun hfc => absurd hfc (show fc + 1 ≠ MAX_FAILURES by omega)⟩
    · have h1n : fc + 1 < MAX_FAILURES := h1
      exact ⟨show fc + 2 ≤ MAX_FAILURES by omega, fun _ => rfl⟩
    · have h1n : fc + 2 < MAX_FAILURES := h1
      exact ⟨show fc + 2 ≤ MAX_FAILURES by omega,
        fun hfc => absurd hfc (show fc + 2 ≠ MAX_FAILURES by omega)⟩
  case STAGE_4 =>
    have hfcne : fc ≠ MAX_FAILURES := fun hfc => LockState.noConfusion (hmax hfc)
    simp only [loopStep, loopT]
    split
    · exact ⟨Nat.zero_le _, fun hfc => by simp [MAX_FAILURES] at hfc⟩
    · exact ⟨hle, fun hfc => absurd hfc hfcne⟩
  case UNLOCKED =>
    have hfcne : fc ≠ MAX_FAILURES := fun hfc => LockState.noConfusion (hmax hfc)
    exact ⟨hle, fun hfc => absurd hfc hfcne⟩
  case FAILED =>
    have hfcne : fc ≠ MAX_FAILURES := fun hfc => LockState.noConfusion (hmax hfc)
    exact ⟨hle, fun hfc => absurd hfc hfcne⟩
  case LOCKDOWN =>
    simp only [loopStep, loopT]
    split
    · exact ⟨Nat.zero_le _, fun hfc => by simp [MAX_FAILURES] at hfc⟩
    · exact ⟨hle, fun _ => rfl⟩


theorem counterInv_run (inputs : List (Sensors × Nat)) :
    ∀ c : Ctl, counterInv c → counterInv (run c inputs) := by
  induction inputs with
  | nil => intro c h; exact h
  | cons i rest ih =>
      intro c h
      exact ih (loopStep c i.1 i.2) (counterInv_step c i.1 i.2 h)

/-- Inputs that arm the lock and reach the timed stage: hold both buttons,
release both, let `ARMED` advance, cover the LDR, then press button 1 while
dark.  All iterations start at clock 0. -/
def armToStage3 : List (Sensors × Nat) :=
  [(⟨500, true, true⟩, 0), (⟨500, false, false⟩, 0), (⟨500, false, false⟩, 0),
   (⟨0, false, false⟩, 0), (⟨0, true, false⟩, 0)]

/-- One complete failed attempt: arm, reach the timed stage, then let the
window expire (iteration start 4000 puts the timed read past the window)
without uncovering the LDR. -/
def failRound : List (Sensors × Nat) :=
  armToStage3 ++ [(⟨500, false, false⟩, 4000)]

/-- Three consecutive failed attempts with no unlock in between. -/
def threeFailures : List (Sensors × Nat) := failRound ++ failRound ++ failRound

example : run init armToStage3 = ⟨STAGE_3_TIMED, 0, 1108⟩ := by decide
example : run init failRound = ⟨IDLE, 1, 1108⟩ := by decide
example : run init threeFailures = ⟨LOCKDOWN, 3, 6682⟩ := by decide

/-! ### Claims -/

/-- C2: in every configuration reachable from the initial state, the failure
counter lies in `[0, MAX_FAILURES]` (the lower bound is inherent to `Nat`),
and whenever the counter has reached `MAX_FAILURES` the controller is in
`LOCKDOWN` — i.e. the transition that brought it there entered `LOCKDOWN`. -/
theorem counter_bounded_and_max_forces_lockdown (inputs : List (Sensors × Nat)) :
    (run init inputs).failureCount ≤ MAX_FAILURES ∧
      ((run init inputs).failureCount = MAX_FAILURES →
        (run init inputs).currentState = LOCKDOWN) :=
  counterInv_run inputs init
    ⟨Nat.zero_le _, fun h => by simp [init, MAX_FAILURES] at h⟩

theorem counter_bounded_and_max_forces_lockdown_witness :
    (run init threeFailures).currentState = LOCKDOWN :=
  (counter_bounded_and_max_forces_lockdown threeFailures).2 (by decide)

/-- C4: a failure-path traversal with the counter at 2 (its value after two
consecutive failures from zero) enters `LOCKDOWN` with the counter at 3; and
concretely, three consecutive failed attempts from the initial state, with no
`Unlocked` in between, leave the controller in `LOCKDOWN`. -/
theorem third_consecutive_failure_locks_down :
    (∀ (c : Ctl) (s : Sensors) (now : Nat),
        c.currentState = STAGE_3_TIMED →
        c.failureCount = 2 →
        TIMED_STAGE_WINDOW < now + indicatorDuration 3 - c.stageStartTime →
        (loopStep c s now).currentState = LOCKDOWN ∧
          (loopStep c s now).failureCount = 3) ∧
      (run init threeFailures).currentState = LOCKDOWN ∧
        (run init threeFailures).failureCount = 3 := by
  constructor
  · intro c s now hst hfc hexp
    rcases c with ⟨st, fc, ss⟩
    have hst2 : st = STAGE_3_TIMED := hst
    have hfc2 : fc = 2 := hfc
    subst hst2; subst hfc2
    have hexp2 : TIMED_STAGE_WINDOW < now + indicatorDuration 3 - ss := hexp
    have hstep : loopStep ⟨STAGE_3_TIMED, 2, ss⟩ s now
        = (stage3Case ⟨STAGE_3_TIMED, 2, ss⟩ s now).1 := rfl
    rw [hstep, stage3_fail_lock _ s now hexp2 (show MAX_FAILURES ≤ 2 + 1 by decide)]
    exact ⟨rfl, rfl⟩
  · exact ⟨by decide, by decide⟩

theorem third_consecutive_failure_locks_down_witness :
    (loopStep ⟨STAGE_3_TIMED, 2, 0⟩ ⟨0, false, false⟩ 3000).currentState
      = LOCKDOWN :=
  (third_consecutive_failure_locks_down.1 ⟨STAGE_3_TIMED, 2, 0⟩ ⟨0, false, false⟩
    3000 rfl rfl (by decide)).1

/-- C1 counterexample: from a reachable configuration in `STAGE_3_TIMED`, an
expiring iteration assigns `IDLE` directly — the controller never occupies the
intermediate `FAILED` state, and the transition `STAGE_3_TIMED → IDLE` it
takes is not in the §4.1 table (which routes failures through `Failed`). -/
theorem failed_state_never_occupied_cex :
    run init armToStage3 = ⟨STAGE_3_TIMED, 0, 1108⟩ ∧
      occupied (run init armToStage3) ⟨500, false, false⟩ 4000
        = [STAGE_3_TIMED, IDLE] ∧
      FAILED ∉ occupied (run init armToStage3) ⟨500, false, false⟩ 4000 ∧
      specTable STAGE_3_TIMED IDLE = false := by decide

/-- C1 amended: the controller (one `currentState` variable) occupies exactly
one state at a time, and every transition along the occupancy sequence of any
iteration is in the §4.1 table amended as the code behaves: the `Failed` rows
are replaced by direct `Stage3Timed → Idle` / `Stage3Timed → Lockdown` steps,
and the double-failure iteration adds `Idle → Idle` / `Idle → Lockdown`. -/
theorem transitions_match_code_table (c : Ctl) (s : Sensors) (now : Nat) :
    ∀ x y : LockState,
      (x, y) ∈ chainPairs (occupied c s now) → codeTable x y = true := by
  intro x y hxy
  rcases c with ⟨st, fc, ss⟩
  cases st
  case IDLE =>
    simp only [occupied, loopT] at hxy
    split at hxy <;> simp [chainPairs] at hxy
    obtain ⟨rfl, rfl⟩ := hxy; rfl
  case ARMING =>
    simp only [occupied, loopT] at hxy
    split at hxy <;> simp [chainPairs] at hxy
    obtain ⟨rfl, rfl⟩ := hxy; rfl
  case ARMED =>
    simp only [occupied, loopT] at hxy
    simp [chainPairs] at hxy
    obtain ⟨rfl, rfl⟩ := hxy; rfl
  case STAGE_1 =>
    simp only [occupied, loopT] at hxy
    split at hxy <;> simp [chainPairs] at hxy
    obtain ⟨rfl, rfl⟩ := hxy; rfl
  case STAGE_2 =>
    simp only [occupied, loopT] at hxy
    split at hxy <;> simp [chainPairs] at hxy
    obtain ⟨rfl, rfl⟩ := hxy; rfl
  case STAGE_3_TIMED =>
    simp only [occupied] at hxy
    rw [show loopT ⟨STAGE_3_TIMED, fc, ss⟩ s now
        = stage3Case ⟨STAGE_3_TIMED, fc, ss⟩ s now from rfl] at hxy
    rcases stage3_cases ⟨STAGE_3_TIMED, fc, ss⟩ s now with
      ⟨he, _⟩ | ⟨he, _⟩ | ⟨he, _, _⟩ | ⟨he, _, _⟩ | ⟨he, _, _, _⟩ | ⟨he, _, _⟩ <;>
      rw [he] at hxy <;> simp [chainPairs] at hxy
    · obtain ⟨rfl, rfl⟩ := hxy; rfl
    · obtain ⟨rfl, rfl⟩ := hxy; rfl
    · obtain ⟨rfl, rfl⟩ := hxy; rfl
    · rcases hxy with ⟨rfl, rfl⟩ | ⟨rfl, rfl⟩ <;> rfl
    · rcases hxy with ⟨rfl, rfl⟩ | ⟨rfl, rfl⟩ <;> rfl
  case STAGE_4 =>
    simp only [occupied, loopT] at hxy
    split at hxy <;> simp [chainPairs] at hxy
    rcases hxy with ⟨rfl, rfl⟩ | ⟨rfl, rfl⟩ <;> rfl
  case UNLOCKED =>
    simp [occupied, loopT, chainPairs] at hxy
  case FAILED =>
    simp [occupied, loopT, chainPairs] at hxy
  case LOCKDOWN =>
    simp only [occupied, loopT] at hxy
    split at hxy <;> simp [chainPairs] at hxy
    obtain ⟨rfl, rfl⟩ := hxy; rfl

theorem transitions_match_code_table_witness :
    (STAGE_3_TIMED, IDLE)
        ∈ chainPairs (occupied ⟨STAGE_3_TIMED, 0, 1108⟩ ⟨500, false, false⟩ 4000)
      ∧ codeTable STAGE_3_TIMED IDLE = true :=
  ⟨by decide,
   transitions_match_code_table ⟨STAGE_3_TIMED, 0, 1108⟩ ⟨500, false, false⟩ 4000
     STAGE_3_TIMED IDLE (by decide)⟩

/-- C3: in `STAGE_3_TIMED`, once the elapsed time at the clock read of the
iteration exceeds the window, the iteration takes the failure path (the counter
strictly increases) and never advances to `STAGE_4`, even when the light
guard also holds on the same iteration. -/
theorem expiry_overrides_success (c : Ctl) (s : Sensors) (now : Nat)
    (hst : c.currentState = STAGE_3_TIMED)
    (hexp : TIMED_STAGE_WINDOW < now + indicatorDuration 3 - c.stageStartTime) :
    (loopStep c s now).currentState ≠ STAGE_4 ∧
      c.failureCount < (loopStep c s now).failureCount := by
  rcases c with ⟨st, fc, ss⟩
  have hst2 : st = STAGE_3_TIMED := hst
  subst hst2
  have hexp2 : TIMED_STAGE_WINDOW < now + indicatorDuration 3 - ss := hexp
  have hstep : loopStep ⟨STAGE_3_TIMED, fc, ss⟩ s now
      = (stage3Case ⟨STAGE_3_TIMED, fc, ss⟩ s now).1 := rfl
  rcases stage3_cases ⟨STAGE_3_TIMED, fc, ss⟩ s now with
    ⟨he, hn⟩ | ⟨he, hn⟩ | ⟨he, _, _⟩ | ⟨he, _, _⟩ | ⟨he, _, _, _⟩ | ⟨he, _, _⟩ <;>
    first
      | exact absurd hexp2 hn
      | (rw [hstep, he]
         exact ⟨fun h => LockState.noConfusion h, show fc < fc + 1 by omega⟩)
      | (rw [hstep, he]
         exact ⟨fun h => LockState.noConfusion h, show fc < fc + 2 by omega⟩)

theorem expiry_overrides_success_witness :
    (loopStep ⟨STAGE_3_TIMED, 0, 0⟩ ⟨800, false, false⟩ 3000).currentState
        ≠ STAGE_4 ∧
      (0 : Nat) < (loopStep ⟨STAGE_3_TIMED, 0, 0⟩ ⟨800, false, false⟩
        3000).failureCount :=
  expiry_overrides_success ⟨STAGE_3_TIMED, 0, 0⟩ ⟨800, false, false⟩ 3000 rfl
    (by decide)

/-- C5: over any single iteration, the failure counter strictly increases only
when the iteration starts in `STAGE_3_TIMED` (the failure path); it drops only
by resetting to zero, and only from `STAGE_4` (reaching `UNLOCKED`) or from
`LOCKDOWN` (leaving lockdown); reaching `UNLOCKED` always resets it; and an
iteration that leaves `LOCKDOWN` always goes to `IDLE` with the counter
cleared. -/
theorem counter_and_lockdown_discipline (c : Ctl) (s : Sensors) (now : Nat) :
    ((loopStep c s now).failureCount < c.failureCount →
        (loopStep c s now).failureCount = 0 ∧
          (c.currentState = STAGE_4 ∨ c.currentState = LOCKDOWN)) ∧
      (c.failureCount < (loopStep c s now).failureCount →
        c.currentState = STAGE_3_TIMED) ∧
      (UNLOCKED ∈ (loopT c s now).2 → (loopStep c s now).failureCount = 0) ∧
      (c.currentState = LOCKDOWN →
        loopStep c s now = c ∨
          ((loopStep c s now).currentState = IDLE ∧
            (loopStep c s now).failureCount = 0)) := by
  rcases c with ⟨st, fc, ss⟩
  cases st
  case IDLE =>
    simp only [loopStep, loopT]
    split <;>
      exact ⟨fun h => absurd h (Nat.lt_irrefl fc),
        fun h => absurd h (Nat.lt_irrefl fc),
        fun hm => absurd hm (by simp),
        fun h => LockState.noConfusion h⟩
  case ARMING =>
    simp only [loopStep, loopT]
    split <;>
      exact ⟨fun h => absurd h (Nat.lt_irrefl fc),
        fun h => absurd h (Nat.lt_irrefl fc),
        fun hm => absurd hm (by simp),
        fun h => LockState.noConfusion h⟩
  case ARMED =>
    refine ⟨?_, ?_, ?_, ?_⟩ <;> intro h <;> simp_all [loopStep, loopT]
  case STAGE_1 =>
    simp only [loopStep, loopT]
    split <;>
      exact ⟨fun h => absurd h (Nat.lt_irrefl fc),
        fun h => absurd h (Nat.lt_irrefl fc),
        fun hm => absurd hm (by simp),
        fun h => LockState.noConfusion h⟩
  case STAGE_2 =>
    simp only [loopStep, loopT]
    split <;>
      exact ⟨fun h => absurd h (Nat.lt_irrefl fc),
        fun h => absurd h (Nat.lt_irrefl fc),
        fun hm => absurd hm (by simp),
        fun h => LockState.noConfusion h⟩
  case STAGE_3_TIMED =>
    rw [show loopStep ⟨STAGE_3_TIMED, fc, ss⟩ s now
        = (stage3Case ⟨STAGE_3_TIMED, fc, ss⟩ s now).1 from rfl,
      show loopT ⟨STAGE_3_TIMED, fc, ss⟩ s now
        = stage3Case ⟨STAGE_3_TIMED, fc, ss⟩ s now from rfl]
    rcases stage3_cases ⟨STAGE_3_TIMED, fc, ss⟩ s now with
      ⟨he, _⟩ | ⟨he, _⟩ | ⟨he, _, _⟩ | ⟨he, _, _⟩ | ⟨he, _, _, _⟩ | ⟨he, _, _⟩ <;>
      rw [he]
    · exact ⟨fun h => absurd h (Nat.lt_irrefl fc),
        fun _ => rfl, fun hm => absurd hm (by simp),
        fun h => LockState.noConfusion h⟩
    · exact ⟨fun h => absurd h (Nat.lt_irrefl fc),
        fun _ => rfl, fun hm => absurd hm (by simp),
        fun h => LockState.noConfusion h⟩
    · exact ⟨fun h => absurd h (show ¬ fc + 1 < fc by omega),
        fun _ => rfl, fun hm => absurd hm (by simp),
        fun h => LockState.noConfusion h⟩
    · exact ⟨fun h => absurd h (show ¬ fc + 1 < fc by omega),
        fun _ => rfl, fun hm => absurd hm (by simp),
        fun h => LockState.noConfusion h⟩
    · exact ⟨fun h => absurd h (show ¬ fc + 2 < fc by omega),
        fun _ => rfl, fun hm => absurd hm (by simp),
        fun h => LockState.noConfusion h⟩
    · exact ⟨fun h => absurd h (show ¬ fc + 2 < fc by omega),
        fun _ => rfl, fun hm => absurd hm (by simp),
        fun h => LockState.noConfusion h⟩
  case STAGE_4 =>
    refine ⟨?_, ?_, ?_, ?_⟩ <;> intro h <;>
      by_cases hb : (decide (LIGHT_THRESHOLD < s.ldr) && s.btn2Low) = true <;>
      simp_all [loopStep, loopT, Nat.not_lt_zero]
  case UNLOCKED =>
    refine ⟨?_, ?_, ?_, ?_⟩ <;> intro h <;> simp_all [loopStep, loopT]
  case FAILED =>
    refine ⟨?_, ?_, ?_, ?_⟩ <;> intro h <;> simp_all [loopStep, loopT]
  case LOCKDOWN =>
    by_cases hb : LOCKDOWN_DURATION < now + LOCKDOWN_POLL_DELAY - ss
    · have he : loopStep ⟨LOCKDOWN, fc, ss⟩ s now = ⟨IDLE, 0, ss⟩ := by
        simp [loopStep, loopT, hb]
      have ht : (loopT ⟨LOCKDOWN, fc, ss⟩ s now).2 = [IDLE] := by
        simp [loopT, hb]
      rw [he, ht]
      exact ⟨fun _ => ⟨rfl, Or.inr rfl⟩, fun h => absurd h (Nat.not_lt_zero fc),
        fun hm => absurd hm (by simp), fun _ => Or.inr ⟨rfl, rfl⟩⟩
    · have he : loopStep ⟨LOCKDOWN, fc, ss⟩ s now = ⟨LOCKDOWN, fc, ss⟩ := by
        simp [loopStep, loopT, hb]
      have ht : (loopT ⟨LOCKDOWN, fc, ss⟩ s now).2 = [] := by
        simp [loopT, hb]
      rw [he, ht]
      exact ⟨fun h => absurd h (Nat.lt_irrefl fc),
        fun h => absurd h (Nat.lt_irrefl fc),
        fun hm => absurd hm (by simp), fun _ => Or.inl rfl⟩

theorem counter_and_lockdown_discipline_witness :
    loopStep ⟨LOCKDOWN, 3, 0⟩ ⟨0, false, false⟩ 0 = ⟨LOCKDOWN, 3, 0⟩ ∨
      ((loopStep ⟨LOCKDOWN, 3, 0⟩ ⟨0, false, false⟩ 0).currentState = IDLE ∧
        (loopStep ⟨LOCKDOWN, 3, 0⟩ ⟨0, false, false⟩ 0).failureCount = 0) :=
  (counter_and_lockdown_discipline ⟨LOCKDOWN, 3, 0⟩ ⟨0, false, false⟩ 0).2.2.2 rfl

/-- C6: `IDLE` is left exactly when both buttons read pressed on the same
iteration; with never more than one button pressed at a time the controller
stays in `IDLE` over any input sequence; and from `ARMING` the system becomes
`ARMED` exactly when both buttons read released on the same iteration. -/
theorem arming_requires_both_buttons :
    (∀ (c : Ctl) (s : Sensors) (now : Nat), c.currentState = IDLE →
        ((loopStep c s now).currentState ≠ IDLE ↔
          s.btn1Low = true ∧ s.btn2Low = true)) ∧
      (∀ (c : Ctl) (inputs : List (Sensors × Nat)), c.currentState = IDLE →
        (∀ i ∈ inputs, ¬(i.1.btn1Low = true ∧ i.1.btn2Low = true)) →
        (run c inputs).currentState = IDLE) ∧
      (∀ (c : Ctl) (s : Sensors) (now : Nat), c.currentState = ARMING →
        ((loopStep c s now).currentState = ARMED ↔
          s.btn1Low = false ∧ s.btn2Low = false)) := by
  refine ⟨?_, ?_, ?_⟩
  · intro c s now hst
    rcases c with ⟨st, fc, ss⟩
    have hst2 : st = IDLE := hst
    subst hst2
    rcases s with ⟨ldr, b1, b2⟩
    cases b1 <;> cases b2 <;> simp [loopStep, loopT]
  · intro c inputs
    induction inputs generalizing c with
    | nil => intro hst _; exact hst
    | cons i rest ih =>
        intro hst hnb
        have hrun : run c (i :: rest) = run (loopStep c i.1 i.2) rest := rfl
        rw [hrun]
        apply ih
        · rcases c with ⟨st, fc, ss⟩
          have hst2 : st = IDLE := hst
          subst hst2
          have hni := hnb i (List.mem_cons_self i rest)
          rcases i with ⟨s, t⟩
          rcases s with ⟨ldr, b1, b2⟩
          cases b1 <;> cases b2 <;> simp_all [loopStep, loopT]
        · intro j hj
          exact hnb j (List.mem_cons_of_mem i hj)
  · intro c s now hst
    rcases c with ⟨st, fc, ss⟩
    have hst2 : st = ARMING := hst
    subst hst2
    rcases s with ⟨ldr, b1, b2⟩
    cases b1 <;> cases b2 <;> simp [loopStep, loopT]

theorem arming_requires_both_buttons_witness :
    (run init
        [(⟨0, true, false⟩, 0), (⟨0, false, true⟩, 1),
         (⟨0, true, false⟩, 2)]).currentState = IDLE :=
  arming_requires_both_buttons.2.1 init
    [(⟨0, true, false⟩, 0), (⟨0, false, true⟩, 1), (⟨0, true, false⟩, 2)]
    rfl (by decide)

/-- C7: a reading strictly inside the dead zone between the two thresholds
satisfies neither the dark guard nor the light guard, and such an iteration
leaves the waiting stage unchanged — in `STAGE_3_TIMED` provided the window
has not yet expired. -/
theorem dead_zone_satisfies_no_guard (c : Ctl) (s : Sensors) (now : Nat)
    (hd : DARK_THRESHOLD < s.ldr) (hl : s.ldr < LIGHT_THRESHOLD) :
    (¬ s.ldr < DARK_THRESHOLD ∧ ¬ LIGHT_THRESHOLD < s.ldr) ∧
      ((c.currentState = STAGE_1 ∨ c.currentState = STAGE_2 ∨
          c.currentState = STAGE_4) → loopStep c s now = c) ∧
      (c.currentState = STAGE_3_TIMED →
        ¬ TIMED_STAGE_WINDOW < now + indicatorDuration 3 - c.stageStartTime →
        loopStep c s now = c) := by
  have hnd : ¬ s.ldr < DARK_THRESHOLD := by omega
  have hnl : ¬ LIGHT_THRESHOLD < s.ldr := by omega
  refine ⟨⟨hnd, hnl⟩, ?_, ?_⟩
  · intro hst
    rcases c with ⟨st, fc, ss⟩
    rcases hst with h | h | h
    · have h2 : st = STAGE_1 := h
      subst h2
      simp [loopStep, loopT, hnd]
    · have h2 : st = STAGE_2 := h
      subst h2
      simp [loopStep, loopT, hnd]
    · have h2 : st = STAGE_4 := h
      subst h2
      simp [loopStep, loopT, hnl]
  · intro hst hnexp
    rcases c with ⟨st, fc, ss⟩
    have h2 : st = STAGE_3_TIMED := hst
    subst h2
    have hnexp2 : ¬ TIMED_STAGE_WINDOW < now + indicatorDuration 3 - ss := hnexp
    have hstep : loopStep ⟨STAGE_3_TIMED, fc, ss⟩ s now
        = (stage3Case ⟨STAGE_3_TIMED, fc, ss⟩ s now).1 := rfl
    rw [hstep, stage3_wait _ s now hnl hnexp2]

theorem dead_zone_satisfies_no_guard_witness :
    loopStep ⟨STAGE_1, 0, 0⟩ ⟨500, false, false⟩ 0 = ⟨STAGE_1, 0, 0⟩ :=
  (dead_zone_satisfies_no_guard ⟨STAGE_1, 0, 0⟩ ⟨500, false, false⟩ 0
    (by decide) (by decide)).2.1 (Or.inl rfl)

/-- The guard that triggers a transition out of each state, read off the
corresponding `case` of `loop()` (for `ARMED` the transition is
unconditional; `UNLOCKED` and `FAILED` have no transition in `loop()`). -/
def guardSat (c : Ctl) (s : Sensors) (now : Nat) : Bool :=
  match c.currentState with
  | IDLE => s.btn1Low && s.btn2Low
  | ARMING => !s.btn1Low && !s.btn2Low
  | ARMED => true
  | STAGE_1 => decide (s.ldr < DARK_THRESHOLD)
  | STAGE_2 => decide (s.ldr < DARK_THRESHOLD) && s.btn1Low
  | STAGE_3_TIMED =>
      decide (LIGHT_THRESHOLD < s.ldr) ||
        decide (TIMED_STAGE_WINDOW < now + indicatorDuration 3 - c.stageStartTime)
  | STAGE_4 => decide (LIGHT_THRESHOLD < s.ldr) && s.btn2Low
  | UNLOCKED => false
  | FAILED => false
  | LOCKDOWN =>
      decide (LOCKDOWN_DURATION < now + LOCKDOWN_POLL_DELAY - c.stageStartTime)

/-- C8: outside `STAGE_3_TIMED`, an iteration whose guard is unsatisfied
leaves the whole controller state (state, counter, timestamp) unchanged — the
controller waits; in particular it never takes the failure path or enters
`FAILED` or `LOCKDOWN` from such an iteration. -/
theorem unsatisfied_guard_waits (c : Ctl) (s : Sensors) (now : Nat)
    (hne : c.currentState ≠ STAGE_3_TIMED) (hg : guardSat c s now = false) :
    loopStep c s now = c := by
  rcases c with ⟨st, fc, ss⟩
  cases st
  case IDLE =>
    simp only [guardSat] at hg
    simp [loopStep, loopT, hg]
  case ARMING =>
    simp only [guardSat] at hg
    simp [loopStep, loopT, hg]
  case ARMED =>
    simp only [guardSat] at hg
    exact Bool.noConfusion hg
  case STAGE_1 =>
    simp only [guardSat] at hg
    have h := of_decide_eq_false hg
    simp [loopStep, loopT, h]
  case STAGE_2 =>
    simp only [guardSat] at hg
    simp [loopStep, loopT, hg]
  case STAGE_3_TIMED => exact absurd rfl hne
  case STAGE_4 =>
    simp only [guardSat] at hg
    simp [loopStep, loopT, hg]
  case UNLOCKED => rfl
  case FAILED => rfl
  case LOCKDOWN =>
    simp only [guardSat] at hg
    have h := of_decide_eq_false hg
    simp [loopStep, loopT, h]

theorem unsatisfied_guard_waits_witness :
    loopStep ⟨IDLE, 0, 0⟩ ⟨0, true, false⟩ 5 = ⟨IDLE, 0, 0⟩ :=
  unsatisfied_guard_waits ⟨IDLE, 0, 0⟩ ⟨0, true, false⟩ 5 (by decide) (by decide)

/-- C9: the stage-entry timestamp changes only on an iteration that enters a
stage (`STAGE_1` from `ARMED`, or a stage advance) or enters `LOCKDOWN`; it is
untouched by non-transitioning iterations, by the `IDLE` and `ARMING`
handlers, by the unlock sequence, by lockdown (including its exit), and by a
failure-path traversal that returns to `IDLE`. -/
theorem stage_timer_frame (c : Ctl) (s : Sensors) (now : Nat) :
    ((loopStep c s now).stageStartTime ≠ c.stageStartTime →
        (loopStep c s now).currentState ≠ c.currentState ∧
          ((loopStep c s now).currentState = STAGE_1 ∨
           (loopStep c s now).currentState = STAGE_2 ∨
           (loopStep c s now).currentState = STAGE_3_TIMED ∨
           (loopStep c s now).currentState = STAGE_4 ∨
           (loopStep c s now).currentState = LOCKDOWN)) ∧
      ((c.currentState = IDLE ∨ c.currentState = ARMING ∨
          c.currentState = STAGE_4 ∨ c.currentState = UNLOCKED ∨
          c.currentState = FAILED ∨ c.currentState = LOCKDOWN) →
        (loopStep c s now).stageStartTime = c.stageStartTime) ∧
      (c.currentState = STAGE_3_TIMED → (loopStep c s now).currentState = IDLE →
        (loopStep c s now).stageStartTime = c.stageStartTime) := by
  rcases c with ⟨st, fc, ss⟩
  cases st
  case IDLE =>
    simp only [loopStep, loopT]
    split <;>
      exact ⟨fun h => absurd rfl h, fun _ => rfl,
        fun hst => LockState.noConfusion hst⟩
  case ARMING =>
    simp only [loopStep, loopT]
    split <;>
      exact ⟨fun h => absurd rfl h, fun _ => rfl,
        fun hst => LockState.noConfusion hst⟩
  case ARMED =>
    exact ⟨fun _ => ⟨fun heq => LockState.noConfusion heq, Or.inl rfl⟩,
      fun hd => by rcases hd with h | h | h | h | h | h <;>
        exact LockState.noConfusion h,
      fun hst => LockState.noConfusion hst⟩
  case STAGE_1 =>
    simp only [loopStep, loopT]
    split
    · exact ⟨fun _ => ⟨fun heq => LockState.noConfusion heq,
        Or.inr (Or.inl rfl)⟩,
        fun hd => by rcases hd with h | h | h | h | h | h <;>
          exact LockState.noConfusion h,
        fun hst => LockState.noConfusion hst⟩
    · exact ⟨fun h => absurd rfl h,
        fun hd => by rcases hd with h | h | h | h | h | h <;>
          exact LockState.noConfusion h,
        fun hst => LockState.noConfusion hst⟩
  case STAGE_2 =>
    simp only [loopStep, loopT]
    split
    · exact ⟨fun _ => ⟨fun heq => LockState.noConfusion heq,
        Or.inr (Or.inr (Or.inl rfl))⟩,
        fun hd => by rcases hd with h | h | h | h | h | h <;>
          exact LockState.noConfusion h,
        fun hst => LockState.noConfusion hst⟩
    · exact ⟨fun h => absurd rfl h,
        fun hd => by rcases hd with h | h | h | h | h | h <;>
          exact LockState.noConfusion h,
        fun hst => LockState.noConfusion hst⟩
  case STAGE_3_TIMED =>
    rw [show loopStep ⟨STAGE_3_TIMED, fc, ss⟩ s now
        = (stage3Case ⟨STAGE_3_TIMED, fc, ss⟩ s now).1 from rfl]
    rcases stage3_cases ⟨STAGE_3_TIMED, fc, ss⟩ s now with
      ⟨he, _⟩ | ⟨he, _⟩ | ⟨he, _, _⟩ | ⟨he, _, _⟩ | ⟨he, _, _, _⟩ | ⟨he, _, _⟩ <;>
      rw [he]
    · exact ⟨fun h => absurd rfl h,
        fun hd => by rcases hd with h | h | h | h | h | h <;>
          exact LockState.noConfusion h,
        fun _ hI => LockState.noConfusion hI⟩
    · exact ⟨fun _ => ⟨fun heq => LockState.noConfusion heq,
        Or.inr (Or.inr (Or.inr (Or.inl rfl)))⟩,
        fun hd => by rcases hd with h | h | h | h | h | h <;>
          exact LockState.noConfusion h,
        fun _ hI => LockState.noConfusion hI⟩
    · exact ⟨fun _ => ⟨fun heq => LockState.noConfusion heq,
        Or.inr (Or.inr (Or.inr (Or.inr rfl)))⟩,
        fun hd => by rcases hd with h | h | h | h | h | h <;>
          exact LockState.noConfusion h,
        fun _ hI => LockState.noConfusion hI⟩
    · exact ⟨fun h => absurd rfl h,
        fun hd => by rcases hd with h | h | h | h | h | h <;>
          exact LockState.noConfusion h,
        fun _ _ => rfl⟩
    · exact ⟨fun _ => ⟨fun heq => LockState.noConfusion heq,
        Or.inr (Or.inr (Or.inr (Or.inr rfl)))⟩,
        fun hd => by rcases hd with h | h | h | h | h | h <;>
          exact LockState.noConfusion h,
        fun _ hI => LockState.noConfusion hI⟩
    · exact ⟨fun h => absurd rfl h,
        fun hd => by rcases hd with h | h | h | h | h | h <;>
          exact LockState.noConfusion h,
        fun _ _ => rfl⟩
  case STAGE_4 =>
    simp only [loopStep, loopT]
    split <;>
      exact ⟨fun h => absurd rfl h, fun _ => rfl,
        fun hst => LockState.noConfusion hst⟩
  case UNLOCKED =>
    exact ⟨fun h => absurd rfl h, fun _ => rfl,
      fun hst => LockState.noConfusion hst⟩
  case FAILED =>
    exact ⟨fun h => absurd rfl h, fun _ => rfl,
      fun hst => LockState.noConfusion hst⟩
  case LOCKDOWN =>
    simp only [loopStep, loopT]
    split <;>
      exact ⟨fun h => absurd rfl h, fun _ => rfl,
        fun hst => LockState.noConfusion hst⟩

theorem stage_timer_frame_witness :
    (loopStep ⟨IDLE, 0, 7⟩ ⟨0, true, true⟩ 3).stageStartTime = 7 :=
  (stage_timer_frame ⟨IDLE, 0, 7⟩ ⟨0, true, true⟩ 3).2.1 (Or.inl rfl)

/-- C10: an iteration in `STAGE_3_TIMED` where the light guard holds and the
window has expired runs `failSequence` twice: with the counter at most
`MAX_FAILURES - 2` beforehand, the counter rises by exactly two, and if it was
exactly `MAX_FAILURES - 2` this single iteration enters `LOCKDOWN`. -/
theorem light_plus_expiry_double_failure (c : Ctl) (s : Sensors) (now : Nat)
    (hst : c.currentState = STAGE_3_TIMED)
    (hl : LIGHT_THRESHOLD < s.ldr)
    (hexp : TIMED_STAGE_WINDOW < now + indicatorDuration 3 - c.stageStartTime)
    (hfc : c.failureCount + 2 ≤ MAX_FAILURES) :
    (loopStep c s now).failureCount = c.failureCount + 2 ∧
      (c.failureCount = MAX_FAILURES - 2 →
        (loopStep c s now).currentState = LOCKDOWN) := by
  rcases c with ⟨st, fc, ss⟩
  have hst2 : st = STAGE_3_TIMED := hst
  subst hst2
  have hexp2 : TIMED_STAGE_WINDOW < now + indicatorDuration 3 - ss := hexp
  have hfc2 : fc + 2 ≤ MAX_FAILURES := hfc
  have hstep : loopStep ⟨STAGE_3_TIMED, fc, ss⟩ s now
      = (stage3Case ⟨STAGE_3_TIMED, fc, ss⟩ s now).1 := rfl
  by_cases hmax : MAX_FAILURES ≤ fc + 2
  · rw [hstep, stage3_double_lock _ s now hl hexp2
      (show fc + 1 < MAX_FAILURES by omega) hmax]
    exact ⟨rfl, fun _ => rfl⟩
  · have h4 : fc + 2 < MAX_FAILURES := Nat.not_le.mp hmax
    rw [hstep, stage3_double_idle _ s now hl hexp2 h4]
    refine ⟨rfl, fun hfc3 => ?_⟩
    have h5 : fc = MAX_FAILURES - 2 := hfc3
    exact absurd h5 (by omega)

theorem light_plus_expiry_double_failure_witness :
    (loopStep ⟨STAGE_3_TIMED, 1, 0⟩ ⟨800, false, false⟩ 3000).failureCount = 3 ∧
      (loopStep ⟨STAGE_3_TIMED, 1, 0⟩ ⟨800, false, false⟩ 3000).currentState
        = LOCKDOWN := by
  have h := light_plus_expiry_double_failure ⟨STAGE_3_TIMED, 1, 0⟩
    ⟨800, false, false⟩ 3000 rfl (by decide) (by decide) (by decide)
  exact ⟨h.1, h.2 rfl⟩
